import Mathlib

/-!
Verification of the nested-model comparator (`Ftest`) of
`src/08_fitting.ipynb` against its natural-language specification.

The notebook defines (cell with the F-test):

    def Ftest(ssr_1, ssr_2, ndof_1, ndof_2, nbins, verbose=False):
        F = ((ssr_1 - ssr_2)/(ndof_2 - ndof_1)) / (ssr_2/(nbins - ndof_2))
        CL = 1. - stats.f.cdf(F, ndof_2 - ndof_1, nbins - ndof_2)
        if verbose: print("CL: %.3f" % CL, ", additional parameter necessary:",
                          "YES" if CL < 0.10 else "NO")
        return CL

At every call site in the notebook `ssr_1` and `ssr_2` are `numpy.float64`
scalars (results of `np.sum`), so the arithmetic follows IEEE-754 semantics
as implemented by numpy scalars: division by zero yields a signed infinity
(or NaN for 0/0) with a runtime warning, never an exception.  We embed the
numeric values as exact rationals extended with the two infinities and NaN,
and the external `stats.f.cdf` collaborator as an explicit function
argument.  The `print` side effect is embedded as a returned list of
diagnostic records (confidence level together with the YES/NO decision
flag); the list is empty when `verbose` is false.
-/

/-- Value domain of the embedding: an IEEE-style float modelled exactly, a
finite rational or one of the special values `+inf`, `-inf`, `nan`. -/
inductive PyFloat where
  | fin (q : ℚ)
  | pinf
  | ninf
  | nan
deriving DecidableEq, Repr

/-- Subtraction with IEEE-754 special-value semantics (numpy float64). -/
def PyFloat.sub : PyFloat → PyFloat → PyFloat
  | .nan, _ => .nan
  | .fin _, .nan => .nan
  | .pinf, .nan => .nan
  | .ninf, .nan => .nan
  | .fin a, .fin b => .fin (a - b)
  | .fin _, .pinf => .ninf
  | .fin _, .ninf => .pinf
  | .pinf, .fin _ => .pinf
  | .ninf, .fin _ => .ninf
  | .pinf, .pinf => .nan
  | .pinf, .ninf => .pinf
  | .ninf, .pinf => .ninf
  | .ninf, .ninf => .nan

/-- Division with IEEE-754 special-value semantics (numpy float64): a
nonzero finite value divided by zero gives a signed infinity, 0/0 gives
NaN, finite/infinite gives 0.  The exact zero of the rational embedding is
unsigned and behaves as IEEE +0. -/
def PyFloat.div : PyFloat → PyFloat → PyFloat
  | .nan, _ => .nan
  | .fin _, .nan => .nan
  | .pinf, .nan => .nan
  | .ninf, .nan => .nan
  | .fin a, .fin b =>
      if b = 0 then (if 0 < a then .pinf else if a < 0 then .ninf else .nan)
      else .fin (a / b)
  | .fin _, .pinf => .fin 0
  | .fin _, .ninf => .fin 0
  | .pinf, .fin b => if b < 0 then .ninf else .pinf
  | .ninf, .fin b => if b < 0 then .pinf else .ninf
  | .pinf, .pinf => .nan
  | .pinf, .ninf => .nan
  | .ninf, .pinf => .nan
  | .ninf, .ninf => .nan

/-- The Python comparison `x < c` against a finite literal `c`: any
comparison with NaN is false. -/
def PyFloat.lt (x : PyFloat) (c : ℚ) : Bool :=
  match x with
  | .fin a => decide (a < c)
  | .pinf => false
  | .ninf => true
  | .nan => false

/-- The F-statistic line of `Ftest` in `src/08_fitting.ipynb`:
`F = ((ssr_1 - ssr_2)/(ndof_2 - ndof_1)) / (ssr_2/(nbins - ndof_2))`.
The integer differences are promoted to floats by the divisions, exactly as
Python promotes `int` operands. -/
def Fval (ssr_1 ssr_2 : PyFloat) (ndof_1 ndof_2 nbins : ℤ) : PyFloat :=
  ((ssr_1.sub ssr_2).div (.fin ((ndof_2 - ndof_1 : ℤ) : ℚ))).div
    (ssr_2.div (.fin ((nbins - ndof_2 : ℤ) : ℚ)))

/-- The confidence-level line of `Ftest` in `src/08_fitting.ipynb`:
`CL = 1. - stats.f.cdf(F, ndof_2 - ndof_1, nbins - ndof_2)`, with the
external `stats.f.cdf` collaborator abstracted as the argument `fcdf`. -/
def CLval (fcdf : PyFloat → ℤ → ℤ → PyFloat)
    (ssr_1 ssr_2 : PyFloat) (ndof_1 ndof_2 nbins : ℤ) : PyFloat :=
  (PyFloat.fin 1).sub
    (fcdf (Fval ssr_1 ssr_2 ndof_1 ndof_2 nbins) (ndof_2 - ndof_1) (nbins - ndof_2))

/-- Embedding of `Ftest` from `src/08_fitting.ipynb`.  The function returns
`CL`; the optional diagnostic `print` is embedded as the second component,
a list of records `(CL, decision)` where the Boolean is the printed
`"YES" if CL < 0.10 else "NO"` flag (true = YES = additional parameter
necessary).  In the source `verbose` defaults to `False`; here it is passed
explicitly. -/
def Ftest (fcdf : PyFloat → ℤ → ℤ → PyFloat)
    (ssr_1 ssr_2 : PyFloat) (ndof_1 ndof_2 nbins : ℤ) (verbose : Bool) :
    PyFloat × List (PyFloat × Bool) :=
  let CL := CLval fcdf ssr_1 ssr_2 ndof_1 ndof_2 nbins
  (CL, if verbose then [(CL, CL.lt (1/10))] else [])

/-- Modelled from the spec (section 4.1, algorithm block), first line:
`F = ((ssr_simple - ssr_rich) / (dof_rich - dof_simple)) /
(ssr_rich / (n_observations - dof_rich))`, stated in the same extended
arithmetic; used only to compare the spec's algorithm with the code. -/
def specF (ssr_simple ssr_rich : PyFloat)
    (dof_simple dof_rich n_observations : ℤ) : PyFloat :=
  ((ssr_simple.sub ssr_rich).div (.fin ((dof_rich - dof_simple : ℤ) : ℚ))).div
    (ssr_rich.div (.fin ((n_observations - dof_rich : ℤ) : ℚ)))

/-- Modelled from the spec (section 4.1, algorithm block), second line:
`confidence_level = 1 - FisherCDF(F, d1 = dof_rich - dof_simple,
d2 = n_observations - dof_rich)`; used only to compare the spec's algorithm
with the code. -/
def specCL (FisherCDF : PyFloat → ℤ → ℤ → PyFloat)
    (ssr_simple ssr_rich : PyFloat)
    (dof_simple dof_rich n_observations : ℤ) : PyFloat :=
  (PyFloat.fin 1).sub
    (FisherCDF (specF ssr_simple ssr_rich dof_simple dof_rich n_observations)
      (dof_rich - dof_simple) (n_observations - dof_rich))

/-- A concrete stand-in for the external Fisher CDF, used to instantiate
witnesses: monotone on finite arguments, 0 at and below 0, 1 at `+inf`,
NaN-propagating — the qualitative properties the spec assumes of
`stats.f.cdf`.  (It ignores the degrees-of-freedom arguments; it is a model
of the interface, not of scipy.) -/
def fcdfModel : PyFloat → ℤ → ℤ → PyFloat
  | .fin x, _, _ => .fin (min 1 (max 0 x))
  | .pinf, _, _ => .fin 1
  | .ninf, _, _ => .fin 0
  | .nan, _, _ => .nan

/-! ## Helper lemmas -/

/-- On finite inputs with valid degrees of freedom and `ssr_2 ≠ 0`, the
F-statistic line evaluates to the exact rational value of the formula. -/
lemma Fval_fin (s1 s2 : ℚ) (d1 d2 n : ℤ) (h3 : d1 < d2) (h4 : d2 < n) (hs2 : s2 ≠ 0) :
    Fval (.fin s1) (.fin s2) d1 d2 n
      = .fin ((s1 - s2) / ((d2 : ℚ) - (d1 : ℚ)) / (s2 / ((n : ℚ) - (d2 : ℚ)))) := by
  have hD0 : ((d2 : ℚ) - (d1 : ℚ)) ≠ 0 := sub_ne_zero.mpr (by exact_mod_cast h3.ne')
  have hN0 : ((n : ℚ) - (d2 : ℚ)) ≠ 0 := sub_ne_zero.mpr (by exact_mod_cast h4.ne')
  have hq : s2 / ((n : ℚ) - (d2 : ℚ)) ≠ 0 := div_ne_zero hs2 hN0
  simp [Fval, PyFloat.sub, PyFloat.div, hD0, hN0, hq]

/-- The concrete CDF model is monotone on finite arguments. -/
lemma fcdfModel_mono (D1 D2 : ℤ) (x y : ℚ) (h : x ≤ y) :
    ∃ a b : ℚ, fcdfModel (.fin x) D1 D2 = .fin a ∧ fcdfModel (.fin y) D1 D2 = .fin b ∧ a ≤ b :=
  ⟨_, _, rfl, rfl, min_le_min le_rfl (max_le_max le_rfl h)⟩

/-- The concrete CDF model vanishes on negative finite arguments. -/
lemma fcdfModel_nonpos (D1 D2 : ℤ) (x : ℚ) (hx : x < 0) :
    fcdfModel (.fin x) D1 D2 = .fin 0 := by
  have h1 : max 0 x = 0 := max_eq_left hx.le
  simp [fcdfModel, h1]

/-! ## Claims -/

/-- C1: for every input satisfying the preconditions (ssr values
non-negative, `dof_rich > dof_simple`, `n_observations > dof_rich`), the
code's F-statistic and confidence level coincide exactly with the spec's
algorithm block `F = ((ssr_simple - ssr_rich) / (dof_rich - dof_simple)) /
(ssr_rich / (n_observations - dof_rich))` and
`confidence_level = 1 - FisherCDF(F, dof_rich - dof_simple,
n_observations - dof_rich)`, stated in the same extended-rational
arithmetic. -/
theorem claim_C1 (fcdf : PyFloat → ℤ → ℤ → PyFloat) (s1 s2 : ℚ) (d1 d2 n : ℤ)
    (h1 : 0 ≤ s1) (h2 : 0 ≤ s2) (h3 : d1 < d2) (h4 : d2 < n) :
    Fval (.fin s1) (.fin s2) d1 d2 n = specF (.fin s1) (.fin s2) d1 d2 n ∧
    (Ftest fcdf (.fin s1) (.fin s2) d1 d2 n false).1
      = specCL fcdf (.fin s1) (.fin s2) d1 d2 n :=
  ⟨rfl, rfl⟩

/-- C1 witness: the agreement instantiated at `ssr_simple = 120`,
`ssr_rich = 80`, `dof_simple = 1`, `dof_rich = 2`, `n_observations = 100`
with the concrete CDF model. -/
theorem claim_C1_witness :
    (0:ℚ) ≤ 120 ∧ (0:ℚ) ≤ 80 ∧ (1:ℤ) < 2 ∧ (2:ℤ) < 100 ∧
    (Fval (.fin 120) (.fin 80) 1 2 100 = specF (.fin 120) (.fin 80) 1 2 100 ∧
     (Ftest fcdfModel (.fin 120) (.fin 80) 1 2 100 false).1
       = specCL fcdfModel (.fin 120) (.fin 80) 1 2 100) :=
  ⟨by norm_num, by norm_num, by norm_num, by norm_num,
   claim_C1 fcdfModel 120 80 1 2 100 (by norm_num) (by norm_num) (by norm_num) (by norm_num)⟩

/-- C2 counterexample: the claim says the compare operation returns the
triple `(F, confidence_level, decision)`.  In the code `Ftest` returns only
`CL`: two calls whose F-statistics differ (49 versus 24.5, computed by
`specF`, which agrees with the code's `Fval`) return identical values, so
the returned value cannot contain the F component of the triple. -/
theorem claim_C2_counterexample :
    Ftest fcdfModel (.fin 120) (.fin 80) 1 2 100 false
      = Ftest fcdfModel (.fin 100) (.fin 80) 1 2 100 false ∧
    specF (.fin 120) (.fin 80) 1 2 100 ≠ specF (.fin 100) (.fin 80) 1 2 100 := by
  constructor
  · norm_num [Ftest, CLval, Fval, PyFloat.sub, PyFloat.div, fcdfModel]
  · norm_num [specF, PyFloat.sub, PyFloat.div]

/-- C2 amended: for every input, `Ftest` returns only the confidence level
(the second component of the spec's triple); the F-statistic and the
decision are not part of the return value.  The decision — YES
("additional parameter necessary", i.e. justified) iff
`confidence_level < 0.10` — appears only in the diagnostic record emitted
when `verbose` is true; with `verbose` false (the source's default) no
diagnostic output is produced. -/
theorem claim_C2 (fcdf : PyFloat → ℤ → ℤ → PyFloat)
    (ssr_1 ssr_2 : PyFloat) (ndof_1 ndof_2 nbins : ℤ) :
    Ftest fcdf ssr_1 ssr_2 ndof_1 ndof_2 nbins false
      = (CLval fcdf ssr_1 ssr_2 ndof_1 ndof_2 nbins, []) ∧
    Ftest fcdf ssr_1 ssr_2 ndof_1 ndof_2 nbins true
      = (CLval fcdf ssr_1 ssr_2 ndof_1 ndof_2 nbins,
         [(CLval fcdf ssr_1 ssr_2 ndof_1 ndof_2 nbins,
           (CLval fcdf ssr_1 ssr_2 ndof_1 ndof_2 nbins).lt (1/10))]) :=
  ⟨rfl, rfl⟩

/-- C3: the claim says an input with `dof_rich <= dof_simple` fails with an
explicit invalid-input error.  The code has no precondition check: with
`ndof_1 = ndof_2 = 2` the zero degrees-of-freedom difference silently
propagates an infinity (the F line divides by zero) and a numeric
confidence level is returned; with `ndof_1 = 3 > ndof_2 = 2` a meaningless
finite value `F = -49` is computed and a numeric confidence level is
returned.  No error is signalled in either case. -/
theorem claim_C3_eval :
    (Fval (.fin 120) (.fin 80) 2 2 100 = .pinf ∧
     Ftest fcdfModel (.fin 120) (.fin 80) 2 2 100 false = (.fin 0, [])) ∧
    (Fval (.fin 120) (.fin 80) 3 2 100 = .fin (-49) ∧
     Ftest fcdfModel (.fin 120) (.fin 80) 3 2 100 false = (.fin 1, [])) := by
  refine ⟨⟨?_, ?_⟩, ?_, ?_⟩ <;>
    norm_num [Ftest, CLval, Fval, PyFloat.sub, PyFloat.div, fcdfModel]

/-- C4: the claim says an input with `n_observations <= dof_rich` raises an
insufficient-data error.  The code has no such check: with
`nbins = ndof_2 = 100` the second denominator divides by zero, `F`
collapses to `0` and a numeric confidence level is returned; with
`nbins = 50 < ndof_2 = 100` a meaningless negative `F` is computed and a
numeric confidence level is returned.  No error is signalled in either
case. -/
theorem claim_C4_eval :
    (Fval (.fin 120) (.fin 80) 1 100 100 = .fin 0 ∧
     Ftest fcdfModel (.fin 120) (.fin 80) 1 100 100 false = (.fin 1, [])) ∧
    (Fval (.fin 120) (.fin 80) 1 100 50 = .fin (-(25/99)) ∧
     Ftest fcdfModel (.fin 120) (.fin 80) 1 100 50 false = (.fin 1, [])) := by
  refine ⟨⟨?_, ?_⟩, ?_, ?_⟩ <;>
    norm_num [Ftest, CLval, Fval, PyFloat.sub, PyFloat.div, fcdfModel]

/-- C5: for every otherwise-valid input with `ssr_rich = 0` and
`ssr_simple > 0`, no arithmetic error escapes: under the numpy float64
semantics of the call sites the F-statistic is the defined sentinel
`+inf`, and — given the external CDF evaluates to 1 at `+inf`, as
`stats.f.cdf` does — the returned confidence level is 0. -/
theorem claim_C5 (fcdf : PyFloat → ℤ → ℤ → PyFloat) (s1 : ℚ) (d1 d2 n : ℤ)
    (hs1 : 0 < s1) (h3 : d1 < d2) (h4 : d2 < n)
    (hcdf : fcdf .pinf (d2 - d1) (n - d2) = .fin 1) :
    Fval (.fin s1) (.fin 0) d1 d2 n = .pinf ∧
    Ftest fcdf (.fin s1) (.fin 0) d1 d2 n false = (.fin 0, []) := by
  have hD : (0:ℚ) < ((d2 : ℚ) - (d1 : ℚ)) := sub_pos.mpr (by exact_mod_cast h3)
  have hN0 : ((n : ℚ) - (d2 : ℚ)) ≠ 0 := sub_ne_zero.mpr (by exact_mod_cast h4.ne')
  have hpos : 0 < s1 / ((d2 : ℚ) - (d1 : ℚ)) := div_pos hs1 hD
  have hF : Fval (.fin s1) (.fin 0) d1 d2 n = .pinf := by
    simp [Fval, PyFloat.sub, PyFloat.div, hD.ne', hN0, hpos]
  refine ⟨hF, ?_⟩
  simp [Ftest, CLval, hF, hcdf, PyFloat.sub]

/-- C5 witness: `ssr_simple = 120`, `ssr_rich = 0`, `dof_simple = 1`,
`dof_rich = 2`, `n_observations = 100` with the concrete CDF model. -/
theorem claim_C5_witness :
    (0:ℚ) < 120 ∧ (1:ℤ) < 2 ∧ (2:ℤ) < 100 ∧
    fcdfModel .pinf (2 - 1) (100 - 2) = .fin 1 ∧
    (Fval (.fin 120) (.fin 0) 1 2 100 = .pinf ∧
     Ftest fcdfModel (.fin 120) (.fin 0) 1 2 100 false = (.fin 0, [])) :=
  ⟨by norm_num, by norm_num, by norm_num, rfl,
   claim_C5 fcdfModel 120 1 2 100 (by norm_num) (by norm_num) (by norm_num) rfl⟩

/-- C6 counterexample: the claim ranges over every valid input with
`ssr_simple = ssr_rich`, and `ssr_simple = ssr_rich = 0` satisfies all the
spec's preconditions (ssr values non-negative, `1 < 2 < 100`); there the
code computes `F = 0/0 = NaN`, not 0, and returns a NaN confidence level
(the CDF propagates NaN, as `stats.f.cdf` does), not 1. -/
theorem claim_C6_counterexample :
    ((0:ℚ) ≤ 0 ∧ (1:ℤ) < 2 ∧ (2:ℤ) < 100) ∧
    Fval (.fin 0) (.fin 0) 1 2 100 = .nan ∧
    Ftest fcdfModel (.fin 0) (.fin 0) 1 2 100 false = (.nan, []) ∧
    PyFloat.nan ≠ .fin 0 ∧ PyFloat.nan ≠ .fin 1 := by
  refine ⟨⟨le_refl 0, by norm_num, by norm_num⟩, ?_, ?_, by simp, by simp⟩ <;>
    norm_num [Ftest, CLval, Fval, PyFloat.sub, PyFloat.div, fcdfModel]

/-- C6 amended: for every valid input with `ssr_simple = ssr_rich` and
`ssr_rich > 0` (the spec's separately-specified `ssr_rich = 0` degenerate
case excluded), the F-statistic is exactly 0 and — given the external CDF
evaluates to 0 at 0, as `stats.f.cdf` does — the returned confidence level
is exactly 1. -/
theorem claim_C6 (fcdf : PyFloat → ℤ → ℤ → PyFloat) (s : ℚ) (d1 d2 n : ℤ)
    (hs : 0 < s) (h3 : d1 < d2) (h4 : d2 < n)
    (hcdf0 : fcdf (.fin 0) (d2 - d1) (n - d2) = .fin 0) :
    Fval (.fin s) (.fin s) d1 d2 n = .fin 0 ∧
    Ftest fcdf (.fin s) (.fin s) d1 d2 n false = (.fin 1, []) := by
  have hF : Fval (.fin s) (.fin s) d1 d2 n = .fin 0 := by
    rw [Fval_fin s s d1 d2 n h3 h4 hs.ne']
    simp
  refine ⟨hF, ?_⟩
  simp [Ftest, CLval, hF, hcdf0, PyFloat.sub]

/-- C6 witness: `ssr_simple = ssr_rich = 80`, `dof_simple = 1`,
`dof_rich = 2`, `n_observations = 100` with the concrete CDF model. -/
theorem claim_C6_witness :
    (0:ℚ) < 80 ∧ (1:ℤ) < 2 ∧ (2:ℤ) < 100 ∧
    fcdfModel (.fin 0) (2 - 1) (100 - 2) = .fin 0 ∧
    (Fval (.fin 80) (.fin 80) 1 2 100 = .fin 0 ∧
     Ftest fcdfModel (.fin 80) (.fin 80) 1 2 100 false = (.fin 1, [])) :=
  ⟨by norm_num, by norm_num, by norm_num, by norm_num [fcdfModel],
   claim_C6 fcdfModel 80 1 2 100 (by norm_num) (by norm_num) (by norm_num)
     (by norm_num [fcdfModel])⟩

/-- C7: holding `ssr_rich > 0`, the degrees of freedom and the observation
count fixed, and assuming the external CDF is monotone non-decreasing on
finite arguments (as every cumulative distribution function is), the
confidence level returned by `Ftest` is monotonically non-increasing in the
residual improvement `ssr_simple - ssr_rich`. -/
theorem claim_C7 (fcdf : PyFloat → ℤ → ℤ → PyFloat) (s2 dlt dlt' : ℚ) (d1 d2 n : ℤ)
    (hs2 : 0 < s2) (h3 : d1 < d2) (h4 : d2 < n) (h0 : 0 ≤ s2 + dlt)
    (hmono : ∀ x y : ℚ, x ≤ y →
      ∃ a b : ℚ, fcdf (.fin x) (d2 - d1) (n - d2) = .fin a ∧
        fcdf (.fin y) (d2 - d1) (n - d2) = .fin b ∧ a ≤ b)
    (hle : dlt ≤ dlt') :
    ∃ c c' : ℚ,
      Ftest fcdf (.fin (s2 + dlt)) (.fin s2) d1 d2 n false = (.fin c, []) ∧
      Ftest fcdf (.fin (s2 + dlt')) (.fin s2) d1 d2 n false = (.fin c', []) ∧
      c' ≤ c := by
  have hD : (0:ℚ) < ((d2 : ℚ) - (d1 : ℚ)) := sub_pos.mpr (by exact_mod_cast h3)
  have hN : (0:ℚ) < ((n : ℚ) - (d2 : ℚ)) := sub_pos.mpr (by exact_mod_cast h4)
  have hq : 0 < s2 / ((n : ℚ) - (d2 : ℚ)) := div_pos hs2 hN
  have key : ∀ d : ℚ, Fval (.fin (s2 + d)) (.fin s2) d1 d2 n
      = .fin (d / ((d2 : ℚ) - (d1 : ℚ)) / (s2 / ((n : ℚ) - (d2 : ℚ)))) := by
    intro d
    rw [Fval_fin (s2 + d) s2 d1 d2 n h3 h4 hs2.ne']
    simp [add_sub_cancel_left]
  have hF : dlt / ((d2 : ℚ) - (d1 : ℚ)) / (s2 / ((n : ℚ) - (d2 : ℚ)))
      ≤ dlt' / ((d2 : ℚ) - (d1 : ℚ)) / (s2 / ((n : ℚ) - (d2 : ℚ))) := by
    gcongr
  obtain ⟨a, b, ha, hb, hab⟩ := hmono _ _ hF
  refine ⟨1 - a, 1 - b, ?_, ?_, by linarith⟩
  · simp [Ftest, CLval, key, ha, PyFloat.sub]
  · simp [Ftest, CLval, key, hb, PyFloat.sub]

/-- C7 witness: `ssr_rich = 1`, improvements 0 and 1, `dof_simple = 1`,
`dof_rich = 2`, `n_observations = 3` with the concrete monotone CDF
model. -/
theorem claim_C7_witness :
    (0:ℚ) < 1 ∧ (1:ℤ) < 2 ∧ (2:ℤ) < 3 ∧ (0:ℚ) ≤ 1 + 0 ∧
    (∀ x y : ℚ, x ≤ y →
      ∃ a b : ℚ, fcdfModel (.fin x) (2 - 1) (3 - 2) = .fin a ∧
        fcdfModel (.fin y) (2 - 1) (3 - 2) = .fin b ∧ a ≤ b) ∧
    (0:ℚ) ≤ 1 ∧
    (∃ c c' : ℚ,
      Ftest fcdfModel (.fin (1 + 0)) (.fin 1) 1 2 3 false = (.fin c, []) ∧
      Ftest fcdfModel (.fin (1 + 1)) (.fin 1) 1 2 3 false = (.fin c', []) ∧
      c' ≤ c) :=
  ⟨by norm_num, by norm_num, by norm_num, by norm_num,
   fcdfModel_mono (2 - 1) (3 - 2), by norm_num,
   claim_C7 fcdfModel 1 0 1 1 2 3 (by norm_num) (by norm_num) (by norm_num)
     (by norm_num) (fcdfModel_mono (2 - 1) (3 - 2)) (by norm_num)⟩

/-- C8: for every input with `ssr_rich > ssr_simple` and valid degrees of
freedom and observation count, the F-statistic is a well-defined negative
finite value, no error is raised, and — given the external CDF evaluates to
0 on negative arguments, as `stats.f.cdf` does — the returned confidence
level is exactly 1. -/
theorem claim_C8 (fcdf : PyFloat → ℤ → ℤ → PyFloat) (s1 s2 : ℚ) (d1 d2 n : ℤ)
    (h1 : 0 ≤ s1) (h2 : s1 < s2) (h3 : d1 < d2) (h4 : d2 < n)
    (hneg : ∀ x : ℚ, x < 0 → fcdf (.fin x) (d2 - d1) (n - d2) = .fin 0) :
    (∃ q : ℚ, q < 0 ∧ Fval (.fin s1) (.fin s2) d1 d2 n = .fin q) ∧
    Ftest fcdf (.fin s1) (.fin s2) d1 d2 n false = (.fin 1, []) := by
  have hs2 : 0 < s2 := lt_of_le_of_lt h1 h2
  have hD : (0:ℚ) < ((d2 : ℚ) - (d1 : ℚ)) := sub_pos.mpr (by exact_mod_cast h3)
  have hN : (0:ℚ) < ((n : ℚ) - (d2 : ℚ)) := sub_pos.mpr (by exact_mod_cast h4)
  have hq : 0 < s2 / ((n : ℚ) - (d2 : ℚ)) := div_pos hs2 hN
  have hF := Fval_fin s1 s2 d1 d2 n h3 h4 hs2.ne'
  have hneg1 : (s1 - s2) / ((d2 : ℚ) - (d1 : ℚ)) < 0 :=
    div_neg_of_neg_of_pos (sub_neg.mpr h2) hD
  have hneg2 : (s1 - s2) / ((d2 : ℚ) - (d1 : ℚ)) / (s2 / ((n : ℚ) - (d2 : ℚ))) < 0 :=
    div_neg_of_neg_of_pos hneg1 hq
  refine ⟨⟨_, hneg2, hF⟩, ?_⟩
  simp [Ftest, CLval, hF, hneg _ hneg2, PyFloat.sub]

/-- C8 witness: `ssr_simple = 1`, `ssr_rich = 2`, `dof_simple = 1`,
`dof_rich = 2`, `n_observations = 4` with the concrete CDF model. -/
theorem claim_C8_witness :
    (0:ℚ) ≤ 1 ∧ (1:ℚ) < 2 ∧ (1:ℤ) < 2 ∧ (2:ℤ) < 4 ∧
    (∀ x : ℚ, x < 0 → fcdfModel (.fin x) (2 - 1) (4 - 2) = .fin 0) ∧
    ((∃ q : ℚ, q < 0 ∧ Fval (.fin 1) (.fin 2) 1 2 4 = .fin q) ∧
     Ftest fcdfModel (.fin 1) (.fin 2) 1 2 4 false = (.fin 1, [])) :=
  ⟨by norm_num, by norm_num, by norm_num, by norm_num,
   fun x hx => fcdfModel_nonpos (2 - 1) (4 - 2) x hx,
   claim_C8 fcdfModel 1 2 1 2 4 (by norm_num) (by norm_num) (by norm_num)
     (by norm_num) (fun x hx => fcdfModel_nonpos (2 - 1) (4 - 2) x hx)⟩

/-- C9: at `ssr_simple = 120`, `ssr_rich = 80`, `dof_simple = 1`,
`dof_rich = 2`, `n_observations = 100` the F-statistic is exactly the
rational 49. -/
theorem claim_C9 : Fval (.fin 120) (.fin 80) 1 2 100 = .fin 49 := by
  norm_num [Fval, PyFloat.sub, PyFloat.div]

/-- C10: the value returned by `Ftest` does not depend on `verbose`; with
`verbose` false (the source's default) no diagnostic output is produced,
and with `verbose` true the only output is one diagnostic record carrying
the confidence level and the `CL < 0.10` decision flag. -/
theorem claim_C10 (fcdf : PyFloat → ℤ → ℤ → PyFloat)
    (ssr_1 ssr_2 : PyFloat) (ndof_1 ndof_2 nbins : ℤ) :
    (Ftest fcdf ssr_1 ssr_2 ndof_1 ndof_2 nbins true).1
      = (Ftest fcdf ssr_1 ssr_2 ndof_1 ndof_2 nbins false).1 ∧
    (Ftest fcdf ssr_1 ssr_2 ndof_1 ndof_2 nbins false).2 = [] ∧
    (Ftest fcdf ssr_1 ssr_2 ndof_1 ndof_2 nbins true).2
      = [((Ftest fcdf ssr_1 ssr_2 ndof_1 ndof_2 nbins false).1,
          ((Ftest fcdf ssr_1 ssr_2 ndof_1 ndof_2 nbins false).1).lt (1/10))] :=
  ⟨rfl, rfl, rfl⟩
